import Mathlib

/-!
Shallow embedding of the `readcon` C++ wrapper layer
(`src/include/readcon-core.hpp`) over the opaque Rust parse/format engine.

Modelling conventions:
* C++ `double` values are ferried around untouched (copied, never computed
  with), so they are modelled as `Rat`.
* Opaque engine handles are modelled by the data observable through them
  (the snapshot the engine would return, the header lines it would return,
  the remaining frame stream of an iterator, ...).
* Engine calls that can fail return `Option`/`Int` codes exactly as the C
  API does; C++ `throw` is modelled with `Except String`.
* Side-effect counts (how many engine queries a call performs) are threaded
  explicitly so that query-counting claims are statable.
-/

namespace readcon

/-- C++ `readcon::Atom` (field-for-field; the FFI `CAtom` has the same
fields and `cache_data` copies them across one-for-one, so a single Lean
structure models both). -/
structure Atom where
  atomic_number : Nat
  x : Rat
  y : Rat
  z : Rat
  atom_id : Nat
  mass : Rat
  is_fixed : Bool
  vx : Rat
  vy : Rat
  vz : Rat
  has_velocity : Bool
deriving DecidableEq, Repr

/-- The transient `CFrame` record returned by `rkr_frame_to_c_frame`:
cell, angles, velocity flag and the atom array. -/
structure CFrame where
  cell : Rat × Rat × Rat
  angles : Rat × Rat × Rat
  has_velocities : Bool
  atoms : List Atom
deriving DecidableEq, Repr

/-- The observable content behind an opaque `RKRConFrame *` engine handle:
what `rkr_frame_to_c_frame` would return (`none` models a null `CFrame *`),
and what `rkr_frame_get_header_line_cpp` would return for each of the four
header lines (`none` models a null string, i.e. an absent line). -/
structure RKRConFrame where
  snapshot : Option CFrame
  preboxLines : Option String × Option String
  postboxLines : Option String × Option String
deriving DecidableEq, Repr

/-- Engine call `rkr_frame_get_header_line_cpp(handle, is_prebox, index)`.
The wrapper only ever calls indices 0 and 1; other indices model the
engine's out-of-range null return. -/
def rkr_frame_get_header_line_cpp (h : RKRConFrame) (isPrebox : Bool)
    (index : Nat) : Option String :=
  match isPrebox, index with
  | true, 0 => h.preboxLines.1
  | true, 1 => h.preboxLines.2
  | false, 0 => h.postboxLines.1
  | false, 1 => h.postboxLines.2
  | _, _ => none

/-- C++ `readcon::ConFrame`: the engine handle plus the mutable cache
fields. Numeric cache fields are default-initialized stand-ins until
`cache_data` populates them (the C++ leaves them indeterminate; they are
never read before caching). -/
structure ConFrame where
  frame_handle : RKRConFrame
  is_cached : Bool
  atoms_cache : List Atom
  cell_cache : Rat × Rat × Rat
  angles_cache : Rat × Rat × Rat
  prebox_header_cache : String × String
  postbox_header_cache : String × String
  has_velocities_cache : Bool
deriving DecidableEq, Repr

/-- The private constructor `ConFrame(RKRConFrame *frame_handle)`: stores
the handle, leaves `is_cached_ = false` and the caches empty/default. -/
def ConFrame.ofHandle (h : RKRConFrame) : ConFrame :=
  { frame_handle := h
    is_cached := false
    atoms_cache := []
    cell_cache := (0, 0, 0)
    angles_cache := (0, 0, 0)
    prebox_header_cache := ("", "")
    postbox_header_cache := ("", "")
    has_velocities_cache := false }

/-- The `get_and_free_string` lambda inside `ConFrame::cache_data`: asks
the engine for one header line; a null return degrades to the empty
string. -/
def get_and_free_string (h : RKRConFrame) (isPrebox : Bool) (index : Nat) :
    String :=
  match rkr_frame_get_header_line_cpp h isPrebox index with
  | none => ""
  | some s => s

/-- `ConFrame::cache_data`, with the engine-query counts made explicit:
the second component counts `rkr_frame_to_c_frame` snapshot queries and
the third counts `rkr_frame_get_header_line_cpp` header-line queries
performed by this call. Returns `.error` where the C++ throws
(`rkr_frame_to_c_frame` returned null). -/
def ConFrame.cache_data (f : ConFrame) : Except String ConFrame × Nat × Nat :=
  if f.is_cached then (.ok f, 0, 0)
  else
    match f.frame_handle.snapshot with
    | none => (.error "Failed to extract CFrame from handle for caching.", 1, 0)
    | some c =>
        (.ok { f with
            cell_cache := c.cell
            angles_cache := c.angles
            has_velocities_cache := c.has_velocities
            atoms_cache := f.atoms_cache ++ c.atoms
            prebox_header_cache :=
              (get_and_free_string f.frame_handle true 0,
               get_and_free_string f.frame_handle true 1)
            postbox_header_cache :=
              (get_and_free_string f.frame_handle false 0,
               get_and_free_string f.frame_handle false 1)
            is_cached := true },
         1, 4)

/-- Which of the six cached accessors is being called. -/
inductive Accessor where
  | cellA
  | anglesA
  | atomsA
  | preboxA
  | postboxA
  | hasVelA
deriving DecidableEq, Repr

/-- The value an accessor returns (return types differ per accessor). -/
inductive AccessorValue where
  | triple : Rat × Rat × Rat → AccessorValue
  | atomList : List Atom → AccessorValue
  | headerPair : String × String → AccessorValue
  | flag : Bool → AccessorValue
deriving DecidableEq, Repr

/-- The pure read each accessor performs on the cache fields after
`cache_data` returns. -/
def ConFrame.readCache : Accessor → ConFrame → AccessorValue
  | .cellA, f => .triple f.cell_cache
  | .anglesA, f => .triple f.angles_cache
  | .atomsA, f => .atomList f.atoms_cache
  | .preboxA, f => .headerPair f.prebox_header_cache
  | .postboxA, f => .headerPair f.postbox_header_cache
  | .hasVelA, f => .flag f.has_velocities_cache

/-- One call to one of the six accessors `cell()`, `angles()`, `atoms()`,
`prebox_header()`, `postbox_header()`, `has_velocities()`: each calls
`cache_data()` and then returns the corresponding cache field. The result
carries the (possibly updated) frame state and the engine-query counts of
the call. -/
def ConFrame.access (a : Accessor) (f : ConFrame) :
    Except String (AccessorValue × ConFrame) × Nat × Nat :=
  match f.cache_data with
  | (.ok f1, s, hd) => (.ok (ConFrame.readCache a f1, f1), s, hd)
  | (.error e, s, hd) => (.error e, s, hd)

/-- `ConFrame::cell()`. -/
def ConFrame.cell (f : ConFrame) := f.access .cellA

/-- `ConFrame::angles()`. -/
def ConFrame.angles (f : ConFrame) := f.access .anglesA

/-- `ConFrame::atoms()`. -/
def ConFrame.atoms (f : ConFrame) := f.access .atomsA

/-- `ConFrame::prebox_header()`. -/
def ConFrame.prebox_header (f : ConFrame) := f.access .preboxA

/-- `ConFrame::postbox_header()`. -/
def ConFrame.postbox_header (f : ConFrame) := f.access .postboxA

/-- `ConFrame::has_velocities()`. -/
def ConFrame.has_velocities (f : ConFrame) := f.access .hasVelA

/-! ## ConFrameIterator

The engine-side `CConFrameIterator` session is modelled by the list of
frame handles it has yet to yield, plus a counter of how many
`con_frame_iterator_next` calls have been made on it.  Modelled from the
spec: `Iterator-next(handle)` yields the next opaque frame handle or null
(null = end), the sequence is finite and forward-only, and reaching
end-of-file terminates the sequence permanently (an exhausted session
keeps yielding null). -/

/-- The state behind the shared `CConFrameIterator *`: the frames still to
be yielded and the number of engine fetch calls made so far. -/
structure IterWorld where
  stream : List RKRConFrame
  fetchCalls : Nat
deriving DecidableEq, Repr

/-- The nested `ConFrameIterator::Iterator`: a raw copy of the shared
engine-session pointer (`has_ptr = false` models the null pointer of the
`end()` sentinel) and the currently held frame
(`std::unique_ptr<ConFrame>`, `none` = null). -/
structure Iterator where
  has_ptr : Bool
  current_frame : Option ConFrame
deriving DecidableEq, Repr

/-- `Iterator::fetch_next_frame`: one `con_frame_iterator_next` call on the
shared engine session; a returned handle is wrapped in a fresh `ConFrame`,
a null return clears the held frame.  The wrapper only ever reaches this
with a non-null session pointer (the constructor guards the call);
incrementing the null `end()` sentinel is a caller error outside every
claim, modelled as leaving the world untouched. -/
def Iterator.fetch_next_frame (it : Iterator) (w : IterWorld) :
    Iterator × IterWorld :=
  if it.has_ptr then
    match w.stream with
    | [] =>
        ({ it with current_frame := none },
         { w with fetchCalls := w.fetchCalls + 1 })
    | f :: rest =>
        ({ it with current_frame := some (ConFrame.ofHandle f) },
         { stream := rest, fetchCalls := w.fetchCalls + 1 })
  else (it, w)

/-- The private `Iterator(CConFrameIterator *iterator_ptr)` constructor:
stores the pointer and, when it is non-null, immediately fetches the first
frame. -/
def Iterator.construct (hasPtr : Bool) (w : IterWorld) :
    Iterator × IterWorld :=
  let it : Iterator := { has_ptr := hasPtr, current_frame := none }
  if hasPtr then it.fetch_next_frame w else (it, w)

/-- `Iterator::operator++`: unconditionally calls `fetch_next_frame`. -/
def Iterator.inc (it : Iterator) (w : IterWorld) : Iterator × IterWorld :=
  it.fetch_next_frame w

/-- `Iterator::operator!=`: compares the two `std::unique_ptr<ConFrame>`
members, i.e. the owned pointers.  Two distinct live iterator objects have
equal pointers exactly when both are null, so for the comparisons the
wrapper supports (`it != end()`) the C++ comparison is: unequal iff at
least one side holds a frame. -/
def Iterator.ne (a b : Iterator) : Bool :=
  a.current_frame.isSome || b.current_frame.isSome

/-- `ConFrameIterator::ConFrameIterator(path)`: `read_con_file_iterator`
either fails (null, modelled by `openResult = none`) and the constructor
throws, or yields the engine session with no frame fetched yet. -/
def ConFrameIterator.construct (openResult : Option (List RKRConFrame)) :
    Except String IterWorld :=
  match openResult with
  | none => .error "Failed to open .con file for iteration."
  | some frames => .ok { stream := frames, fetchCalls := 0 }

/-- `ConFrameIterator::begin()`: constructs a nested `Iterator` on the
shared (non-null) engine session, which immediately fetches. -/
def ConFrameIterator.begin (w : IterWorld) : Iterator × IterWorld :=
  Iterator.construct true w

/-- `ConFrameIterator::end()`: an `Iterator` on a null session pointer,
holding no frame. -/
def ConFrameIterator.endIter : Iterator :=
  { has_ptr := false, current_frame := none }

/-! ## ConFrameWriter

The opaque `RKRConFrameWriter *` handle is modelled by an identifier; the
engine's two writer constructors are oracles supplied as arguments
(returning `none` for a null handle).  `rkr_writer_extend` is an oracle
returning the engine's result code; the file is touched only by engine
write calls, so the log of those calls (with their handle arrays) stands
for the file's mutation history. -/

/-- Stand-in for the opaque `RKRConFrameWriter` handle. -/
structure RKRConFrameWriter where
  id : Nat
deriving DecidableEq, Repr

/-- Which engine constructor `ConFrameWriter::ConFrameWriter` invoked. -/
inductive WriterCtorCall where
  | viaDefaultCtor
  | viaPrecisionCtor : Nat → WriterCtorCall
deriving DecidableEq, Repr

/-- The default value of the `precision` parameter (`uint8_t precision = 6`). -/
def ConFrameWriter.defaultPrecision : Nat := 6

/-- `ConFrameWriter::ConFrameWriter(path, precision)`: precision 6 goes
through `create_writer_from_path_c`, any other precision through
`create_writer_from_path_with_precision_c`; a null handle from either
makes the constructor throw.  Returns which engine constructor was called
together with the outcome. -/
def ConFrameWriter.construct (path : String) (precision : Nat)
    (engDefault : String → Option RKRConFrameWriter)
    (engPrec : String → Nat → Option RKRConFrameWriter) :
    WriterCtorCall × Except String RKRConFrameWriter :=
  if precision = 6 then
    (.viaDefaultCtor,
     match engDefault path with
     | none => .error ("Failed to create writer for file: " ++ path)
     | some h => .ok h)
  else
    (.viaPrecisionCtor precision,
     match engPrec path precision with
     | none => .error ("Failed to create writer for file: " ++ path)
     | some h => .ok h)

/-- `ConFrame::get_handle()`. -/
def ConFrame.get_handle (f : ConFrame) : RKRConFrame := f.frame_handle

/-- `ConFrameWriter::extend(frames)`: an empty vector returns immediately
with no engine call; otherwise the frame handles are collected in sequence
order and passed to `rkr_writer_extend` in a single call, whose nonzero
result makes the whole call throw.  `extendFn` is the engine's result
code; `calls` is the log of engine write calls made on this writer so far
(the only way the output file changes). -/
def ConFrameWriter.extend (extendFn : List RKRConFrame → Int)
    (frames : List ConFrame) (calls : List (List RKRConFrame)) :
    Except String Unit × List (List RKRConFrame) :=
  if frames = [] then (.ok (), calls)
  else
    let handles := frames.map ConFrame.get_handle
    let calls1 := calls ++ [handles]
    if extendFn handles ≠ 0 then
      (.error "Failed to write multiple frames.", calls1)
    else (.ok (), calls1)

/-! ## ConFrameBuilder

The engine-side builder state (`RKRConFrameBuilder *`) is modelled by the
data accumulated through it.  The engine's own behaviour on these calls is
not part of the wrapper source, so it is modelled from the spec where it
decides a claim. -/

/-- One atom as accumulated by the engine builder (velocity present only
for `rkr_frame_add_atom_with_velocity`). -/
structure BuilderAtom where
  symbol : String
  x : Rat
  y : Rat
  z : Rat
  is_fixed : Bool
  atom_id : Nat
  mass : Rat
  vel : Option (Rat × Rat × Rat)
deriving DecidableEq, Repr

/-- The accumulated state behind a live `RKRConFrameBuilder *`. -/
structure RKRConFrameBuilderData where
  cell : Rat × Rat × Rat
  angles : Rat × Rat × Rat
  prebox : String × String
  postbox : String × String
  added : List BuilderAtom
deriving DecidableEq, Repr

/-- The engine-side decisions the builder calls depend on: which species
symbols are recognized, and what `rkr_frame_builder_build` produces from
an accumulated state (`none` = rejection: empty atom set, mixed velocity,
assembly failure). -/
structure BuilderEngine where
  symbolKnown : String → Bool
  assemble : RKRConFrameBuilderData → Option RKRConFrame

/-- Modelled from the spec: `Builder-add-atom(handle, species-symbol,
x,y,z, fixed, id, mass) → success/failure code`; an unrecognized species
symbol fails, and a call on a consumed/null builder handle must fail
rather than silently no-op (adding atoms after `build()` "must fail").
Returns the result code and the (possibly updated) engine state. -/
def rkr_frame_add_atom (eng : BuilderEngine)
    (handle : Option RKRConFrameBuilderData) (symbol : String)
    (x y z : Rat) (isFixed : Bool) (atomId : Nat) (mass : Rat) :
    Int × Option RKRConFrameBuilderData :=
  match handle with
  | none => (1, none)
  | some d =>
      if eng.symbolKnown symbol then
        (0, some { d with added :=
          d.added ++ [⟨symbol, x, y, z, isFixed, atomId, mass, none⟩] })
      else (1, some d)

/-- Modelled from the spec: `Builder-add-atom-with-velocity(…, vx,vy,vz)`,
same contract as `rkr_frame_add_atom` with velocity data attached. -/
def rkr_frame_add_atom_with_velocity (eng : BuilderEngine)
    (handle : Option RKRConFrameBuilderData) (symbol : String)
    (x y z : Rat) (isFixed : Bool) (atomId : Nat) (mass : Rat)
    (vx vy vz : Rat) : Int × Option RKRConFrameBuilderData :=
  match handle with
  | none => (1, none)
  | some d =>
      if eng.symbolKnown symbol then
        (0, some { d with added :=
          d.added ++ [⟨symbol, x, y, z, isFixed, atomId, mass,
                       some (vx, vy, vz)⟩] })
      else (1, some d)

/-- Modelled from the spec: `Builder-build(handle) → opaque frame handle
or null; consumes the builder handle`; a consumed/null handle yields null
(calling `build()` a second time "must fail"). -/
def rkr_frame_builder_build (eng : BuilderEngine)
    (handle : Option RKRConFrameBuilderData) : Option RKRConFrame :=
  match handle with
  | none => none
  | some d => eng.assemble d

/-- C++ `readcon::ConFrameBuilder`: just the owned engine handle
(`nullptr` after `build()` or move). -/
structure ConFrameBuilder where
  builder_handle : Option RKRConFrameBuilderData
deriving Repr

/-- `ConFrameBuilder::ConFrameBuilder(cell, angles, prebox, postbox)`:
`rkr_frame_new` either rejects the setup (null, modelled by
`engResult = none`) and the constructor throws, or yields the handle. -/
def ConFrameBuilder.construct
    (engResult : Option RKRConFrameBuilderData) :
    Except String ConFrameBuilder :=
  match engResult with
  | none => .error "Failed to create frame builder."
  | some d => .ok { builder_handle := some d }

/-- `ConFrameBuilder::add_atom`: forwards to `rkr_frame_add_atom` and
throws on a nonzero code.  The builder keeps whatever handle state the
engine call left (the engine mutates through the pointer). -/
def ConFrameBuilder.add_atom (eng : BuilderEngine) (b : ConFrameBuilder)
    (symbol : String) (x y z : Rat) (isFixed : Bool) (atomId : Nat)
    (mass : Rat) : Except String Unit × ConFrameBuilder :=
  let r := rkr_frame_add_atom eng b.builder_handle symbol x y z isFixed
    atomId mass
  (if r.1 ≠ 0 then .error "Failed to add atom to frame builder."
   else .ok (),
   { builder_handle := r.2 })

/-- `ConFrameBuilder::add_atom_with_velocity`: forwards to
`rkr_frame_add_atom_with_velocity` and throws on a nonzero code. -/
def ConFrameBuilder.add_atom_with_velocity (eng : BuilderEngine)
    (b : ConFrameBuilder) (symbol : String) (x y z : Rat)
    (isFixed : Bool) (atomId : Nat) (mass : Rat) (vx vy vz : Rat) :
    Except String Unit × ConFrameBuilder :=
  let r := rkr_frame_add_atom_with_velocity eng b.builder_handle symbol
    x y z isFixed atomId mass vx vy vz
  (if r.1 ≠ 0 then
    .error "Failed to add atom with velocity to frame builder."
   else .ok (),
   { builder_handle := r.2 })

/-- `ConFrameBuilder::build()`: calls `rkr_frame_builder_build`, then sets
`builder_handle_ = nullptr` (ownership transferred) BEFORE checking the
result; a null frame makes it throw, otherwise the frame handle is wrapped
in a new `ConFrame`.  Returns the outcome together with the builder's
post-call state. -/
def ConFrameBuilder.build (eng : BuilderEngine) (b : ConFrameBuilder) :
    Except String ConFrame × ConFrameBuilder :=
  let frame := rkr_frame_builder_build eng b.builder_handle
  let b1 : ConFrameBuilder := { builder_handle := none }
  match frame with
  | none => (.error "Failed to build frame from builder.", b1)
  | some fd => (.ok (ConFrame.ofHandle fd), b1)

/-- `ConFrameBuilder::~ConFrameBuilder()`: releases the engine handle iff
it is non-null.  `true` means the destructor would call
`free_rkr_frame_builder`. -/
def ConFrameBuilder.destructorReleasesHandle (b : ConFrameBuilder) : Bool :=
  b.builder_handle.isSome

/-! ## Concrete fixtures (used by witness theorems) -/

/-- A concrete atom. -/
def testAtom : Atom :=
  { atomic_number := 29, x := 1, y := 2, z := 3, atom_id := 0, mass := 63
    is_fixed := true, vx := 0, vy := 0, vz := 0, has_velocity := false }

/-- A concrete snapshot record. -/
def testCFrame : CFrame :=
  { cell := (10, 10, 10), angles := (90, 90, 90), has_velocities := false
    atoms := [testAtom] }

/-- A concrete frame handle with a snapshot and two absent header lines. -/
def testRKR : RKRConFrame :=
  { snapshot := some testCFrame
    preboxLines := (some "hdr", none)
    postboxLines := (none, some "tail") }

/-- A concrete frame handle whose snapshot query returns null. -/
def testRKRNoSnap : RKRConFrame :=
  { snapshot := none, preboxLines := (none, none)
    postboxLines := (none, none) }

/-- A second concrete frame handle, distinct from `testRKR`. -/
def testRKR2 : RKRConFrame :=
  { snapshot := some { testCFrame with cell := (20, 20, 20) }
    preboxLines := (none, none)
    postboxLines := (none, none) }

/-- A concrete engine-side accumulated builder state. -/
def testBuilderData : RKRConFrameBuilderData :=
  { cell := (10, 10, 10), angles := (90, 90, 90), prebox := ("", "")
    postbox := ("", ""), added := [] }

/-- A concrete builder engine whose assembly succeeds with `testRKR`. -/
def testBuilderEngine : BuilderEngine :=
  { symbolKnown := fun _ => true, assemble := fun _ => some testRKR }

/-- A concrete builder engine whose assembly always fails. -/
def testFailBuilderEngine : BuilderEngine :=
  { symbolKnown := fun _ => true, assemble := fun _ => none }

/-- The cache state `cache_data` produces when it materializes a fresh
frame on handle `h` whose snapshot query returned `c` (proof-side
abbreviation of the record `cache_data` builds). -/
def ConFrame.materialize (h : RKRConFrame) (c : CFrame) : ConFrame :=
  { frame_handle := h
    is_cached := true
    atoms_cache := c.atoms
    cell_cache := c.cell
    angles_cache := c.angles
    prebox_header_cache :=
      (get_and_free_string h true 0, get_and_free_string h true 1)
    postbox_header_cache :=
      (get_and_free_string h false 0, get_and_free_string h false 1)
    has_velocities_cache := c.has_velocities }

/-- Unfolding lemma: on a fresh frame with a non-null snapshot,
`cache_data` performs one snapshot query and four header-line queries and
produces the materialized cache state. -/
lemma cache_data_ofHandle_some (h : RKRConFrame) (c : CFrame)
    (hsnap : h.snapshot = some c) :
    (ConFrame.ofHandle h).cache_data
      = (.ok (ConFrame.materialize h c), 1, 4) := by
  simp [ConFrame.cache_data, ConFrame.ofHandle, hsnap, ConFrame.materialize]

/-- Unfolding lemma: on an already-cached frame, `cache_data` performs no
engine query and returns the frame unchanged. -/
lemma cache_data_cached (f : ConFrame) (hc : f.is_cached = true) :
    f.cache_data = (.ok f, 0, 0) := by
  simp [ConFrame.cache_data, hc]

/-- Unfolding lemma: accessing an already-cached frame performs no engine
query, returns the cached value and leaves the state unchanged. -/
lemma access_cached (a : Accessor) (f : ConFrame) (hc : f.is_cached = true) :
    f.access a = (.ok (ConFrame.readCache a f, f), 0, 0) := by
  simp [ConFrame.access, cache_data_cached f hc]

/-! ## Claim theorems -/

/-- Claim C1: for every ConFrame, the first call to any of `cell()`,
`angles()`, `atoms()`, `prebox_header()`, `postbox_header()` or
`has_velocities()` performs exactly one engine snapshot query plus one
query per header line (four); every subsequent call to any of these
accessors returns the cached values without querying the engine again, and
repeated calls return identical values (the frame state is unchanged, so
this holds for the lifetime of the frame). -/
theorem C1_accessor_caching (h : RKRConFrame) (a : Accessor)
    (v : AccessorValue) (f1 : ConFrame)
    (hfirst : (ConFrame.access a (ConFrame.ofHandle h)).1 = .ok (v, f1)) :
    ConFrame.access a (ConFrame.ofHandle h) = (.ok (v, f1), 1, 4) ∧
    (∀ b : Accessor,
      ConFrame.access b f1 = (.ok (ConFrame.readCache b f1, f1), 0, 0)) ∧
    ConFrame.access a f1 = (.ok (v, f1), 0, 0) := by
  cases hsnap : h.snapshot with
  | none =>
      exact absurd hfirst (by
        simp [ConFrame.access, ConFrame.cache_data, ConFrame.ofHandle, hsnap])
  | some c =>
      have hacc : ConFrame.access a (ConFrame.ofHandle h)
          = (.ok (ConFrame.readCache a (ConFrame.materialize h c),
                  ConFrame.materialize h c), 1, 4) := by
        simp [ConFrame.access, cache_data_ofHandle_some h c hsnap]
      rw [hacc] at hfirst
      simp only [Except.ok.injEq, Prod.mk.injEq] at hfirst
      obtain ⟨hv, hf⟩ := hfirst
      have hmat : (ConFrame.materialize h c).is_cached = true := rfl
      subst hf
      refine ⟨?_, ?_, ?_⟩
      · rw [hacc, hv]
      · intro b
        exact access_cached b _ hmat
      · rw [access_cached a _ hmat, hv]

/-- Witness for C1 at a concrete frame handle: the first `cell()` access
succeeds, and the repeated access on the materialized frame is engine-free
and returns the identical value. -/
theorem C1_accessor_caching_witness :
    ConFrame.access .cellA (ConFrame.materialize testRKR testCFrame)
      = (.ok (.triple (10, 10, 10),
              ConFrame.materialize testRKR testCFrame), 0, 0) :=
  (C1_accessor_caching testRKR .cellA (.triple (10, 10, 10))
    (ConFrame.materialize testRKR testCFrame) (by rfl)).2.2

/-- Claim C4: during materialization, an engine-reported absent header
line (null) becomes the empty string in the corresponding header entry,
and the materialization of the rest of the frame succeeds — header absence
never fails the materialization. -/
theorem C4_header_absence_degrades (h : RKRConFrame) (c : CFrame)
    (hsnap : h.snapshot = some c) :
    (ConFrame.ofHandle h).cache_data
      = (.ok (ConFrame.materialize h c), 1, 4) ∧
    (h.preboxLines.1 = none →
      (ConFrame.materialize h c).prebox_header_cache.1 = "") ∧
    (h.preboxLines.2 = none →
      (ConFrame.materialize h c).prebox_header_cache.2 = "") ∧
    (h.postboxLines.1 = none →
      (ConFrame.materialize h c).postbox_header_cache.1 = "") ∧
    (h.postboxLines.2 = none →
      (ConFrame.materialize h c).postbox_header_cache.2 = "") ∧
    (ConFrame.materialize h c).cell_cache = c.cell ∧
    (ConFrame.materialize h c).angles_cache = c.angles ∧
    (ConFrame.materialize h c).atoms_cache = c.atoms ∧
    (ConFrame.materialize h c).has_velocities_cache = c.has_velocities ∧
    (ConFrame.materialize h c).is_cached = true := by
  refine ⟨cache_data_ofHandle_some h c hsnap, ?_, ?_, ?_, ?_,
    rfl, rfl, rfl, rfl, rfl⟩ <;>
    intro habs <;>
    simp [ConFrame.materialize, get_and_free_string,
      rkr_frame_get_header_line_cpp, habs]

/-- Witness for C4 at a concrete handle with two absent header lines:
materialization succeeds and the absent lines read back as `""`. -/
theorem C4_header_absence_degrades_witness :
    (ConFrame.ofHandle testRKR).cache_data
      = (.ok (ConFrame.materialize testRKR testCFrame), 1, 4) ∧
    (ConFrame.materialize testRKR testCFrame).prebox_header_cache.2 = "" ∧
    (ConFrame.materialize testRKR testCFrame).postbox_header_cache.1 = "" :=
  ⟨(C4_header_absence_degrades testRKR testCFrame rfl).1,
   (C4_header_absence_degrades testRKR testCFrame rfl).2.2.1 rfl,
   (C4_header_absence_degrades testRKR testCFrame rfl).2.2.2.1 rfl⟩

/-- Claim C5: if the engine returns no numeric snapshot (null) for a fresh
frame, the triggering accessor call — whichever of the six it is — throws
instead of returning empty or default frame data. -/
theorem C5_null_snapshot_throws (h : RKRConFrame) (a : Accessor)
    (hsnap : h.snapshot = none) :
    ConFrame.access a (ConFrame.ofHandle h)
      = (.error "Failed to extract CFrame from handle for caching.", 1, 0) := by
  simp [ConFrame.access, ConFrame.cache_data, ConFrame.ofHandle, hsnap]

/-- Witness for C5 at a concrete handle whose snapshot query is null:
`atoms()` throws. -/
theorem C5_null_snapshot_throws_witness :
    ConFrame.access .atomsA (ConFrame.ofHandle testRKRNoSnap)
      = (.error "Failed to extract CFrame from handle for caching.", 1, 0) :=
  C5_null_snapshot_throws testRKRNoSnap .atomsA rfl

/-- Claim C2 counterexample: the claim says `ConFrameIterator`
construction from a path "immediately attempts to fetch the first frame".
On a concrete one-frame file the constructor returns with zero
`con_frame_iterator_next` calls made and the frame still unconsumed in the
stream — an attempted fetch would have left `fetchCalls = 1`. -/
theorem C2_counterexample :
    ConFrameIterator.construct (some [testRKR])
      = .ok { stream := [testRKR], fetchCalls := 0 } ∧
    ({ stream := [testRKR], fetchCalls := 0 } : IterWorld).fetchCalls ≠ 1 :=
  ⟨rfl, by decide⟩

/-- Claim C2 (amended): construction from a path opens the file (throwing
when the engine cannot open it) and performs no fetch; the first fetch
happens at `begin()`, whose nested `Iterator` construction immediately
fetches the first frame, so an empty sequence is detectable as
`begin() != end()` being false without the caller performing an explicit
first fetch. -/
theorem C2_construct_then_begin (frames : List RKRConFrame) :
    ConFrameIterator.construct none
      = .error "Failed to open .con file for iteration." ∧
    ConFrameIterator.construct (some frames)
      = .ok { stream := frames, fetchCalls := 0 } ∧
    (ConFrameIterator.begin { stream := frames, fetchCalls := 0 }).2.fetchCalls
      = 1 ∧
    (frames = [] →
      Iterator.ne
        (ConFrameIterator.begin { stream := frames, fetchCalls := 0 }).1
        ConFrameIterator.endIter = false) ∧
    (∀ f rest, frames = f :: rest →
      (ConFrameIterator.begin
          { stream := frames, fetchCalls := 0 }).1.current_frame
        = some (ConFrame.ofHandle f) ∧
      Iterator.ne
        (ConFrameIterator.begin { stream := frames, fetchCalls := 0 }).1
        ConFrameIterator.endIter = true) := by
  refine ⟨rfl, rfl, ?_, ?_, ?_⟩
  · cases frames <;>
      simp [ConFrameIterator.begin, Iterator.construct,
        Iterator.fetch_next_frame]
  · intro hnil
    subst hnil
    simp [ConFrameIterator.begin, Iterator.construct,
      Iterator.fetch_next_frame, Iterator.ne, ConFrameIterator.endIter]
  · intro f rest hcons
    subst hcons
    simp [ConFrameIterator.begin, Iterator.construct,
      Iterator.fetch_next_frame, Iterator.ne, ConFrameIterator.endIter]

/-- Witness for the amended C2: on an empty stream `begin()` already
compares equal to `end()`; on a one-frame stream `begin()` holds the first
frame. -/
theorem C2_construct_then_begin_witness :
    Iterator.ne
      (ConFrameIterator.begin
        { stream := ([] : List RKRConFrame), fetchCalls := 0 }).1
      ConFrameIterator.endIter = false ∧
    (ConFrameIterator.begin
        { stream := [testRKR], fetchCalls := 0 }).1.current_frame
      = some (ConFrame.ofHandle testRKR) :=
  ⟨(C2_construct_then_begin []).2.2.2.1 rfl,
   ((C2_construct_then_begin [testRKR]).2.2.2.2 testRKR [] rfl).1⟩

/-- Claim C6: each advance (`operator++`) performs exactly one
`con_frame_iterator_next` engine call; when the engine returns nothing the
iterator holds no current frame and compares equal to the end position,
end-of-sequence comparison is exactly "both positions hold no current
frame", and the end state is stable under a further advance and repeated
checks. -/
theorem C6_advance_one_fetch (it : Iterator) (w : IterWorld)
    (hp : it.has_ptr = true) :
    (Iterator.inc it w).2.fetchCalls = w.fetchCalls + 1 ∧
    (∀ f rest, w.stream = f :: rest →
      (Iterator.inc it w).1.current_frame = some (ConFrame.ofHandle f) ∧
      (Iterator.inc it w).2.stream = rest) ∧
    (w.stream = [] →
      (Iterator.inc it w).1.current_frame = none ∧
      Iterator.ne (Iterator.inc it w).1 ConFrameIterator.endIter = false ∧
      (Iterator.inc (Iterator.inc it w).1
          (Iterator.inc it w).2).1.current_frame = none ∧
      Iterator.ne
        (Iterator.inc (Iterator.inc it w).1 (Iterator.inc it w).2).1
        ConFrameIterator.endIter = false) ∧
    (∀ x y : Iterator,
      Iterator.ne x y = false ↔
        (x.current_frame = none ∧ y.current_frame = none)) := by
  refine ⟨?_, ?_, ?_, ?_⟩
  · cases hs : w.stream <;>
      simp [Iterator.inc, Iterator.fetch_next_frame, hp, hs]
  · intro f rest hs
    simp [Iterator.inc, Iterator.fetch_next_frame, hp, hs]
  · intro hs
    simp [Iterator.inc, Iterator.fetch_next_frame, hp, hs, Iterator.ne,
      ConFrameIterator.endIter]
  · intro x y
    cases hx : x.current_frame <;> cases hy : y.current_frame <;>
      simp [Iterator.ne, hx, hy]

/-- Witness for C6 at a concrete exhausted stream: the advance makes one
engine call, leaves no current frame, and compares equal to `end()`
stably. -/
theorem C6_advance_one_fetch_witness :
    (Iterator.inc { has_ptr := true, current_frame := none }
        { stream := [], fetchCalls := 0 }).2.fetchCalls = 1 ∧
    (Iterator.inc { has_ptr := true, current_frame := none }
        { stream := [], fetchCalls := 0 }).1.current_frame = none ∧
    Iterator.ne
      (Iterator.inc { has_ptr := true, current_frame := none }
        { stream := [], fetchCalls := 0 }).1
      ConFrameIterator.endIter = false :=
  ⟨(C6_advance_one_fetch { has_ptr := true, current_frame := none }
      { stream := [], fetchCalls := 0 } rfl).1,
   ((C6_advance_one_fetch { has_ptr := true, current_frame := none }
      { stream := [], fetchCalls := 0 } rfl).2.2.1 rfl).1,
   ((C6_advance_one_fetch { has_ptr := true, current_frame := none }
      { stream := [], fetchCalls := 0 } rfl).2.2.1 rfl).2.1⟩

/-- Claim C8: `begin()` on the same `ConFrameIterator` is not idempotent —
each call constructs a fresh nested `Iterator` that immediately fetches
from the shared engine stream, so a second `begin()` yields the second
frame, having skipped past the frame consumed by the first. -/
theorem C8_begin_not_idempotent (a b : RKRConFrame)
    (rest : List RKRConFrame) :
    (ConFrameIterator.begin
        { stream := a :: b :: rest, fetchCalls := 0 }).1.current_frame
      = some (ConFrame.ofHandle a) ∧
    (ConFrameIterator.begin { stream := a :: b :: rest, fetchCalls := 0 }).2
      = { stream := b :: rest, fetchCalls := 1 } ∧
    (ConFrameIterator.begin
        { stream := b :: rest, fetchCalls := 1 }).1.current_frame
      = some (ConFrame.ofHandle b) ∧
    (ConFrameIterator.begin { stream := b :: rest, fetchCalls := 1 }).2
      = { stream := rest, fetchCalls := 2 } := by
  simp [ConFrameIterator.begin, Iterator.construct, Iterator.fetch_next_frame]

/-- Claim C7: `extend` with an empty frame vector performs no engine write
call and leaves the output file (the engine-call log) unchanged; with a
non-empty vector the frame handles are passed to the engine in sequence
order in a single call, and a nonzero engine result fails the whole
`extend` call. -/
theorem C7_extend_empty_noop (extendFn : List RKRConFrame → Int)
    (frames : List ConFrame) (calls : List (List RKRConFrame)) :
    ConFrameWriter.extend extendFn [] calls = (.ok (), calls) ∧
    (frames ≠ [] →
      (ConFrameWriter.extend extendFn frames calls).2
        = calls ++ [frames.map ConFrame.get_handle] ∧
      (extendFn (frames.map ConFrame.get_handle) ≠ 0 →
        (ConFrameWriter.extend extendFn frames calls).1
          = .error "Failed to write multiple frames.") ∧
      (extendFn (frames.map ConFrame.get_handle) = 0 →
        (ConFrameWriter.extend extendFn frames calls).1 = .ok ())) := by
  refine ⟨by simp [ConFrameWriter.extend], fun hne => ?_⟩
  by_cases hc : extendFn (frames.map ConFrame.get_handle) = 0 <;>
    simp [ConFrameWriter.extend, hne, hc]

/-- Witness for C7 at a concrete failing engine and one-frame batch: the
single engine call carries the frame's handle and the call throws; the
empty batch leaves the log untouched. -/
theorem C7_extend_empty_noop_witness :
    ConFrameWriter.extend (fun _ => 1) [] [[testRKR2]] = (.ok (), [[testRKR2]]) ∧
    (ConFrameWriter.extend (fun _ => 1) [ConFrame.ofHandle testRKR] []).2
      = [[testRKR]] ∧
    (ConFrameWriter.extend (fun _ => 1) [ConFrame.ofHandle testRKR] []).1
      = .error "Failed to write multiple frames." := by
  have h2 := (C7_extend_empty_noop (fun _ => 1) [ConFrame.ofHandle testRKR]
    []).2 (by simp)
  exact ⟨(C7_extend_empty_noop (fun _ => 1) [] [[testRKR2]]).1,
    by rw [h2.1]; rfl, h2.2.1 (by decide)⟩

/-- Claim C9: constructing a `ConFrameWriter` with precision exactly 6
(which is also the default) calls the engine's default-precision
constructor; any other precision calls the explicit-precision constructor;
in both cases a null engine handle makes construction throw, and a
non-null handle is adopted. -/
theorem C9_writer_ctor_dispatch (path : String) (p : Nat)
    (engDefault : String → Option RKRConFrameWriter)
    (engPrec : String → Nat → Option RKRConFrameWriter) :
    (ConFrameWriter.construct path 6 engDefault engPrec).1
      = .viaDefaultCtor ∧
    (ConFrameWriter.construct path ConFrameWriter.defaultPrecision
        engDefault engPrec).1 = .viaDefaultCtor ∧
    (p ≠ 6 →
      (ConFrameWriter.construct path p engDefault engPrec).1
        = .viaPrecisionCtor p) ∧
    (engDefault path = none →
      (ConFrameWriter.construct path 6 engDefault engPrec).2
        = .error ("Failed to create writer for file: " ++ path)) ∧
    (∀ h, engDefault path = some h →
      (ConFrameWriter.construct path 6 engDefault engPrec).2 = .ok h) ∧
    (p ≠ 6 → engPrec path p = none →
      (ConFrameWriter.construct path p engDefault engPrec).2
        = .error ("Failed to create writer for file: " ++ path)) ∧
    (∀ h, p ≠ 6 → engPrec path p = some h →
      (ConFrameWriter.construct path p engDefault engPrec).2 = .ok h) := by
  refine ⟨by simp [ConFrameWriter.construct],
    by simp [ConFrameWriter.construct, ConFrameWriter.defaultPrecision],
    fun hp => by simp [ConFrameWriter.construct, hp],
    fun hd => by simp [ConFrameWriter.construct, hd],
    fun h hd => by simp [ConFrameWriter.construct, hd],
    fun hp he => by simp [ConFrameWriter.construct, hp, he],
    fun h hp he => by simp [ConFrameWriter.construct, hp, he]⟩

/-- Witness for C9 at concrete engines: precision 6 with a null default
handle throws through the default constructor; precision 3 goes through
the explicit-precision constructor and adopts the returned handle. -/
theorem C9_writer_ctor_dispatch_witness :
    (ConFrameWriter.construct "out.con" 6 (fun _ => none)
        (fun _ _ => some { id := 1 })).1 = .viaDefaultCtor ∧
    (ConFrameWriter.construct "out.con" 6 (fun _ => none)
        (fun _ _ => some { id := 1 })).2
      = .error ("Failed to create writer for file: " ++ "out.con") ∧
    (ConFrameWriter.construct "out.con" 3 (fun _ => none)
        (fun _ _ => some { id := 1 })).1 = .viaPrecisionCtor 3 ∧
    (ConFrameWriter.construct "out.con" 3 (fun _ => none)
        (fun _ _ => some { id := 1 })).2 = .ok { id := 1 } :=
  ⟨(C9_writer_ctor_dispatch "out.con" 3 (fun _ => none)
      (fun _ _ => some { id := 1 })).1,
   (C9_writer_ctor_dispatch "out.con" 3 (fun _ => none)
      (fun _ _ => some { id := 1 })).2.2.2.1 rfl,
   (C9_writer_ctor_dispatch "out.con" 3 (fun _ => none)
      (fun _ _ => some { id := 1 })).2.2.1 (by decide),
   (C9_writer_ctor_dispatch "out.con" 3 (fun _ => none)
      (fun _ _ => some { id := 1 })).2.2.2.2.2.2 { id := 1 } (by decide) rfl⟩

/-- Claim C3: a successful `build()` transfers ownership of the
accumulated state into a new `ConFrame` (the frame the engine assembled
from that state) and invalidates the builder (handle null); a second
`build()` on the same builder throws, and `add_atom` /
`add_atom_with_velocity` after `build()` throw rather than silently no-op
or resurrect stale state (the handle stays null). -/
theorem C3_build_invalidates (eng : BuilderEngine)
    (d : RKRConFrameBuilderData) (fd : RKRConFrame)
    (hasm : eng.assemble d = some fd) (symbol : String) (x y z : Rat)
    (isFixed : Bool) (atomId : Nat) (mass vx vy vz : Rat) :
    ConFrameBuilder.build eng { builder_handle := some d }
      = (.ok (ConFrame.ofHandle fd), { builder_handle := none }) ∧
    (ConFrameBuilder.build eng { builder_handle := none }).1
      = .error "Failed to build frame from builder." ∧
    (ConFrameBuilder.add_atom eng { builder_handle := none } symbol x y z
        isFixed atomId mass).1
      = .error "Failed to add atom to frame builder." ∧
    (ConFrameBuilder.add_atom eng { builder_handle := none } symbol x y z
        isFixed atomId mass).2 = { builder_handle := none } ∧
    (ConFrameBuilder.add_atom_with_velocity eng { builder_handle := none }
        symbol x y z isFixed atomId mass vx vy vz).1
      = .error "Failed to add atom with velocity to frame builder." ∧
    (ConFrameBuilder.add_atom_with_velocity eng { builder_handle := none }
        symbol x y z isFixed atomId mass vx vy vz).2
      = { builder_handle := none } := by
  refine ⟨?_, rfl, rfl, rfl, rfl, rfl⟩
  simp [ConFrameBuilder.build, rkr_frame_builder_build, hasm]

/-- Witness for C3 at a concrete engine and accumulated state: the build
succeeds and consumes the handle, and a second build plus a post-build
`add_atom` both throw. -/
theorem C3_build_invalidates_witness :
    ConFrameBuilder.build testBuilderEngine
        { builder_handle := some testBuilderData }
      = (.ok (ConFrame.ofHandle testRKR), { builder_handle := none }) ∧
    (ConFrameBuilder.build testBuilderEngine { builder_handle := none }).1
      = .error "Failed to build frame from builder." ∧
    (ConFrameBuilder.add_atom testBuilderEngine { builder_handle := none }
        "Cu" 0 0 0 true 0 63).1
      = .error "Failed to add atom to frame builder." :=
  ⟨(C3_build_invalidates testBuilderEngine testBuilderData testRKR rfl
      "Cu" 0 0 0 true 0 63 0 0 0).1,
   (C3_build_invalidates testBuilderEngine testBuilderData testRKR rfl
      "Cu" 0 0 0 true 0 63 0 0 0).2.1,
   (C3_build_invalidates testBuilderEngine testBuilderData testRKR rfl
      "Cu" 0 0 0 true 0 63 0 0 0).2.2.1⟩

/-- Claim C10: `build()` sets the builder handle to null before checking
the engine's result, so for every builder and engine outcome — success or
failure — the post-build builder is inert (handle null) and its destructor
releases nothing; when the engine returns null the call throws. -/
theorem C10_build_nulls_before_check (eng : BuilderEngine)
    (b : ConFrameBuilder) :
    (ConFrameBuilder.build eng b).2 = { builder_handle := none } ∧
    ConFrameBuilder.destructorReleasesHandle
      (ConFrameBuilder.build eng b).2 = false ∧
    (rkr_frame_builder_build eng b.builder_handle = none →
      (ConFrameBuilder.build eng b).1
        = .error "Failed to build frame from builder.") := by
  cases hfr : rkr_frame_builder_build eng b.builder_handle <;>
    simp [ConFrameBuilder.build, hfr,
      ConFrameBuilder.destructorReleasesHandle]

/-- Witness for C10 at a concrete failing build: the builder ends inert,
its destructor releases nothing, and the call throws. -/
theorem C10_build_nulls_before_check_witness :
    (ConFrameBuilder.build testFailBuilderEngine
        { builder_handle := some testBuilderData }).2
      = { builder_handle := none } ∧
    ConFrameBuilder.destructorReleasesHandle
      (ConFrameBuilder.build testFailBuilderEngine
        { builder_handle := some testBuilderData }).2 = false ∧
    (ConFrameBuilder.build testFailBuilderEngine
        { builder_handle := some testBuilderData }).1
      = .error "Failed to build frame from builder." :=
  ⟨(C10_build_nulls_before_check testFailBuilderEngine
      { builder_handle := some testBuilderData }).1,
   (C10_build_nulls_before_check testFailBuilderEngine
      { builder_handle := some testBuilderData }).2.1,
   (C10_build_nulls_before_check testFailBuilderEngine
      { builder_handle := some testBuilderData }).2.2 rfl⟩

end readcon
